import Mathlib

/-!
Verification of the WeatherStationDashboard core pipeline.

Shallow embedding of:
  * `src/api/main.py` (dew point computation),
  * `src/dashboard/weather_dash_polars.py` (observation/forecast readers,
    merge, daily high/low annotations, window filter, wind-chart bucketing),
  * `src/tasks/get_nws_forecast.py` (description/icon lookup-table appends).

Conventions used throughout:
  * Naive datetimes (Python `datetime.datetime` without tzinfo) are modelled as
    `Nat` microseconds on a linear timeline; one day is exactly
    86 400 000 000 µs, which matches Python naive-datetime arithmetic exactly
    (no leap seconds, `timedelta(days=1)` adds exactly 24 h).
  * Float64 sensor values are idealised as `ℚ`; trigonometric code is
    idealised over `ℝ`.
  * A polars column that may hold nulls is an `Option` field; polars
    aggregations that ignore nulls are modelled accordingly.
  * `strptime(..., strict=False)` parsing is modelled by giving raw rows an
    `Option Nat` timestamp: `none` is exactly a parse failure (polars returns
    null for the row instead of raising).
-/

/-- Microseconds in one second. -/
def usecPerSec : Nat := 1000000

/-- Microseconds in one minute. -/
def usecPerMin : Nat := 60000000

/-- Microseconds in one hour. -/
def usecPerHour : Nat := 3600000000

/-- Microseconds in one (naive) day. -/
def usecPerDay : Nat := 86400000000

/-- Start (midnight) of the naive day containing `t`. -/
def dayStart (t : Nat) : Nat := t / usecPerDay * usecPerDay

/-!  ## Dew point (`src/api/main.py`, `get_dew_point_f`)

Embeds, over `ℝ`:
```
t_air_c = (t_air_f - 32) * 5 / 9
A = 17.27; B = 237.7
alpha = ((A * t_air_c) / (B + t_air_c)) + np.log(rel_humidity / 100.0)
dp_c = (B * alpha) / (A - alpha)
dp_f = (dp_c * 9 / 5) + 32
```
-/

noncomputable def get_dew_point_f (t_air_f rel_humidity : ℝ) : ℝ :=
  let t_air_c := (t_air_f - 32) * 5 / 9
  let A : ℝ := 17.27
  let B : ℝ := 237.7
  let alpha := ((A * t_air_c) / (B + t_air_c)) + Real.log (rel_humidity / 100.0)
  let dp_c := (B * alpha) / (A - alpha)
  dp_c * 9 / 5 + 32

/-- Celsius conversion used inside `get_dew_point_f`. -/
noncomputable def tAirC (t_air_f : ℝ) : ℝ := (t_air_f - 32) * 5 / 9

/-- The `alpha` intermediate of `get_dew_point_f`. -/
noncomputable def dpAlpha (t_air_f rel_humidity : ℝ) : ℝ :=
  17.27 * tAirC t_air_f / (237.7 + tAirC t_air_f) + Real.log (rel_humidity / 100.0)

lemma get_dew_point_f_eq (t h : ℝ) :
    get_dew_point_f t h =
      237.7 * dpAlpha t h / (17.27 - dpAlpha t h) * 9 / 5 + 32 := by
  simp [get_dew_point_f, dpAlpha, tAirC]

/-- `237.7 + t_air_c > 0` on the domain `t > -395.86` (°F). -/
lemma denom_pos {t : ℝ} (ht : -395.86 < t) : 0 < 237.7 + tAirC t := by
  simp only [tAirC]; nlinarith

/-- On the physical domain the `alpha` intermediate stays below `A = 17.27`. -/
lemma dpAlpha_lt {t h : ℝ} (ht : -395.86 < t) (h0 : 0 < h) (h1 : h ≤ 100) :
    dpAlpha t h < 17.27 := by
  have hd := denom_pos ht
  have hlog : Real.log (h / 100.0) ≤ 0 := by
    apply Real.log_nonpos (by positivity) (by linarith)
  have hfrac : 17.27 * tAirC t / (237.7 + tAirC t) < 17.27 := by
    rw [div_lt_iff₀ hd]
    nlinarith
  simp only [dpAlpha]
  linarith

/-- The map `α ↦ B·α/(A−α)` is strictly monotone for `α < A`. -/
lemma core_mono {a b : ℝ} (_ha : a < 17.27) (hb : b < 17.27) (hab : a < b) :
    237.7 * a / (17.27 - a) < 237.7 * b / (17.27 - b) := by
  have ha' : (0 : ℝ) < 17.27 - a := by linarith
  rw [div_lt_div_iff₀ ha' (by linarith)]
  nlinarith

/-- `alpha` is strictly monotone in temperature (fixed humidity). -/
lemma dpAlpha_mono_t {t₁ t₂ h : ℝ} (h₁ : -395.86 < t₁) (ht : t₁ < t₂) :
    dpAlpha t₁ h < dpAlpha t₂ h := by
  have hd₁ := denom_pos h₁
  have hd₂ := denom_pos (lt_trans h₁ ht)
  have hc : tAirC t₁ < tAirC t₂ := by simp only [tAirC]; linarith
  have : 17.27 * tAirC t₁ / (237.7 + tAirC t₁)
       < 17.27 * tAirC t₂ / (237.7 + tAirC t₂) := by
    rw [div_lt_div_iff₀ hd₁ hd₂]
    nlinarith
  simp only [dpAlpha]
  linarith

/-- `alpha` is strictly monotone in humidity (fixed temperature). -/
lemma dpAlpha_mono_h {t h₁ h₂ : ℝ} (h0 : 0 < h₁) (hh : h₁ < h₂) :
    dpAlpha t h₁ < dpAlpha t h₂ := by
  have : Real.log (h₁ / 100.0) < Real.log (h₂ / 100.0) := by
    apply Real.log_lt_log (by positivity)
    · linarith
  simp only [dpAlpha]
  linarith

/-- Claim C7: over the physical domain (temperature above the `B + t_c = 0`
singularity at −395.86 °F, relative humidity in (0, 100]), the dew point
function of `src/api/main.py` is strictly increasing in the air-temperature
argument, strictly increasing in the relative-humidity argument, and equals
the air temperature exactly when relative humidity is 100 %. -/
theorem dew_point_monotone_and_saturation :
    (∀ t₁ t₂ h : ℝ, -395.86 < t₁ → t₁ < t₂ → 0 < h → h ≤ 100 →
      get_dew_point_f t₁ h < get_dew_point_f t₂ h) ∧
    (∀ t h₁ h₂ : ℝ, -395.86 < t → 0 < h₁ → h₁ < h₂ → h₂ ≤ 100 →
      get_dew_point_f t h₁ < get_dew_point_f t h₂) ∧
    (∀ t : ℝ, -395.86 < t → get_dew_point_f t 100 = t) := by
  refine ⟨?_, ?_, ?_⟩
  · intro t₁ t₂ h h₁ ht h0 hle
    rw [get_dew_point_f_eq, get_dew_point_f_eq]
    have ha₁ : dpAlpha t₁ h < 17.27 := dpAlpha_lt h₁ h0 hle
    have ha₂ : dpAlpha t₂ h < 17.27 := dpAlpha_lt (lt_trans h₁ ht) h0 hle
    have hmono := dpAlpha_mono_t (h := h) h₁ ht
    have := core_mono ha₁ ha₂ hmono
    linarith
  · intro t h₁ h₂ ht h0 hh hle
    rw [get_dew_point_f_eq, get_dew_point_f_eq]
    have ha₂ : dpAlpha t h₂ < 17.27 := dpAlpha_lt ht (lt_trans h0 hh) hle
    have hmono := dpAlpha_mono_h (t := t) h0 hh
    have ha₁ : dpAlpha t h₁ < 17.27 := lt_trans hmono ha₂
    have := core_mono ha₁ ha₂ hmono
    linarith
  · intro t ht
    have hd := denom_pos ht
    have hne : (237.7 : ℝ) + tAirC t ≠ 0 := ne_of_gt hd
    rw [get_dew_point_f_eq]
    have hlog : Real.log ((100 : ℝ) / 100.0) = 0 := by norm_num
    have halpha : dpAlpha t 100 = 17.27 * tAirC t / (237.7 + tAirC t) := by
      simp only [dpAlpha, hlog, add_zero]
    rw [halpha]
    have hA : (17.27 : ℝ) - 17.27 * tAirC t / (237.7 + tAirC t)
            = 17.27 * 237.7 / (237.7 + tAirC t) := by
      field_simp
      ring
    rw [hA]
    have hkey : (237.7 : ℝ) * (17.27 * tAirC t / (237.7 + tAirC t))
        / (17.27 * 237.7 / (237.7 + tAirC t)) = tAirC t := by
      rw [mul_div_assoc', div_div_div_cancel_right₀ hne]
      rw [mul_div_mul_comm]
      rw [show (237.7 : ℝ) / 17.27 * ((17.27 * tAirC t) / 237.7)
            = tAirC t * ((237.7 / 237.7) * (17.27 / 17.27)) by ring]
      norm_num
    rw [hkey]
    simp only [tAirC]
    ring

/-- Concrete instantiation of `dew_point_monotone_and_saturation`: both
monotonicity conclusions at (50 °F, 60 °F, 50 %) / (70 °F, 40 %, 80 %),
and saturation at 70 °F. -/
theorem dew_point_monotone_and_saturation_witness :
    get_dew_point_f 50 50 < get_dew_point_f 60 50 ∧
    get_dew_point_f 70 40 < get_dew_point_f 70 80 ∧
    get_dew_point_f 70 100 = 70 := by
  refine ⟨?_, ?_, ?_⟩
  · exact dew_point_monotone_and_saturation.1 50 60 50
      (by norm_num) (by norm_num) (by norm_num) (by norm_num)
  · exact dew_point_monotone_and_saturation.2.1 70 40 80
      (by norm_num) (by norm_num) (by norm_num) (by norm_num)
  · exact dew_point_monotone_and_saturation.2.2 70 (by norm_num)

/-!  ## Circular mean of wind direction
(`src/dashboard/weather_dash_polars.py`, `make_wind_fig`, lines 753-757)

Embeds, over `ℝ`, the per-bucket aggregation
```
pl.col("WIND_DIRECTION").radians().cast(pl.Float32)
  .apply(lambda x: scipy.stats.circmean(x)).degrees()
```
`scipy.stats.circmean(x)` (defaults `high = 2*pi`, `low = 0`) is
`arctan2(mean(sin x), mean(cos x))` brought into `[0, 2π)`; `arctan2(y, x)`
is the argument of the complex number `x + y·i`, so we model it with
`Complex.arg` (range `(-π, π]`) shifted by `2π` when negative.  The
`Float32` cast is idealised away.
-/

/-- `scipy.stats.circmean` over radians, result in `[0, 2π)`. -/
noncomputable def circmeanRad (l : List ℝ) : ℝ :=
  let n : ℝ := l.length
  let s := (l.map Real.sin).sum / n
  let c := (l.map Real.cos).sum / n
  let a := Complex.arg (Complex.ofReal c + Complex.ofReal s * Complex.I)
  if a < 0 then a + 2 * Real.pi else a

/-- The wind-direction aggregate of one wind-chart bucket: degrees → radians,
`circmean`, radians → degrees. -/
noncomputable def windDirectionAgg (degs : List ℝ) : ℝ :=
  circmeanRad (degs.map (fun d => d * Real.pi / 180)) * 180 / Real.pi

lemma sin_350_deg : Real.sin (350 * Real.pi / 180) = -Real.sin (Real.pi / 18) := by
  have h : (350 : ℝ) * Real.pi / 180 = 2 * Real.pi - Real.pi / 18 := by ring
  rw [h, Real.sin_sub, Real.sin_two_pi, Real.cos_two_pi]
  ring

lemma cos_350_deg : Real.cos (350 * Real.pi / 180) = Real.cos (Real.pi / 18) := by
  have h : (350 : ℝ) * Real.pi / 180 = 2 * Real.pi - Real.pi / 18 := by ring
  rw [h, Real.cos_sub, Real.sin_two_pi, Real.cos_two_pi]
  ring

lemma cos_pi_div_18_pos : 0 < Real.cos (Real.pi / 18) := by
  apply Real.cos_pos_of_mem_Ioo
  constructor
  · have := Real.pi_pos
    linarith
  · have := Real.pi_pos
    linarith

/-- Claim C6: the wind chart's per-bucket direction is the circular mean of
the bucket's angles: for the bucket {350°, 10°} the computed mean is exactly
0°, whereas the linear mean of the same bucket is 180°; in particular the
computed value is not 180°. -/
theorem wind_circmean_350_10 :
    windDirectionAgg [350, 10] = 0 ∧
    ((350 : ℝ) + 10) / 2 = 180 ∧
    windDirectionAgg [350, 10] ≠ 180 := by
  have hmap : ([350, 10] : List ℝ).map (fun d => d * Real.pi / 180)
      = [350 * Real.pi / 180, 10 * Real.pi / 180] := by
    simp
  have h10 : (10 : ℝ) * Real.pi / 180 = Real.pi / 18 := by ring
  have hs : Real.sin (350 * Real.pi / 180) + (Real.sin (10 * Real.pi / 180) + 0) = 0 := by
    rw [sin_350_deg, h10]
    ring
  have hc : Real.cos (350 * Real.pi / 180) + (Real.cos (10 * Real.pi / 180) + 0)
      = 2 * Real.cos (Real.pi / 18) := by
    rw [cos_350_deg, h10]
    ring
  have hzero : circmeanRad [350 * Real.pi / 180, 10 * Real.pi / 180] = 0 := by
    simp only [circmeanRad, List.map, List.sum_cons, List.sum_nil, List.length_cons,
      List.length_nil, hs, hc]
    have hlen : ((0 + 1 + 1 : Nat) : ℝ) = (2 : ℝ) := by norm_num
    rw [hlen]
    have hnum : Complex.ofReal (2 * Real.cos (Real.pi / 18) / 2)
          + Complex.ofReal ((0 : ℝ) / 2) * Complex.I
        = Complex.ofReal (Real.cos (Real.pi / 18)) := by
      rw [show (2 * Real.cos (Real.pi / 18) / 2) = Real.cos (Real.pi / 18) by ring]
      rw [show ((0 : ℝ) / 2) = 0 by norm_num]
      simp
    have harg : Complex.arg (Complex.ofReal (Real.cos (Real.pi / 18))) = 0 := by
      apply Complex.arg_ofReal_of_nonneg
      have := cos_pi_div_18_pos
      linarith
    rw [hnum, harg]
    simp
  refine ⟨?_, by norm_num, ?_⟩
  · simp only [windDirectionAgg, hmap, hzero]
    ring
  · simp only [windDirectionAgg, hmap, hzero]
    norm_num

/-!  ## Shared list helpers

`listMax?` / `listMin?` model a polars aggregation `.max()` / `.min()` over a
column: nulls are ignored by the caller (`Option` values are `filterMap`ed
away first) and the aggregate of an empty column is null (`none`).

`insSortBy` is a deterministic stand-in for polars `sort` (whose order among
equal keys is unspecified): an insertion sort by a boolean "`a` may come
before `b`" relation.  Only membership facts about it are used.

`dedupFirst` is a deterministic stand-in for polars `unique` (whose output
order is unspecified): it keeps the first occurrence of each element.
-/

/-- Maximum of a list in a linear order, `none` when empty. -/
def listMax? {α : Type} [LinearOrder α] : List α → Option α
  | [] => none
  | x :: xs => some (xs.foldl max x)

/-- Minimum of a list in a linear order, `none` when empty. -/
def listMin? {α : Type} [LinearOrder α] : List α → Option α
  | [] => none
  | x :: xs => some (xs.foldl min x)

lemma listMax?_eq_none_iff {α : Type} [LinearOrder α] (l : List α) :
    listMax? l = none ↔ l = [] := by
  cases l <;> simp [listMax?]

/-- Insert `x` into `l`, placing it before the first `y` with `le x y`. -/
def insBy {α : Type} (le : α → α → Bool) (x : α) : List α → List α
  | [] => [x]
  | y :: ys => if le x y then x :: y :: ys else y :: insBy le x ys

/-- Insertion sort by `le`. -/
def insSortBy {α : Type} (le : α → α → Bool) : List α → List α
  | [] => []
  | x :: xs => insBy le x (insSortBy le xs)

lemma mem_insBy {α : Type} (le : α → α → Bool) (x a : α) (l : List α) :
    a ∈ insBy le x l ↔ a = x ∨ a ∈ l := by
  induction l with
  | nil => simp [insBy]
  | cons y ys ih =>
    simp only [insBy]
    by_cases h : le x y = true
    · simp [h]
    · simp only [h]
      simp [List.mem_cons, ih]
      tauto

lemma mem_insSortBy {α : Type} (le : α → α → Bool) (a : α) (l : List α) :
    a ∈ insSortBy le l ↔ a ∈ l := by
  induction l with
  | nil => simp [insSortBy]
  | cons x xs ih => simp [insSortBy, mem_insBy, ih]

/-- Keep the first occurrence of every element (auxiliary, with seen-set). -/
def dedupFirstAux {α : Type} [DecidableEq α] (seen : List α) : List α → List α
  | [] => []
  | x :: xs =>
    if x ∈ seen then dedupFirstAux seen xs
    else x :: dedupFirstAux (x :: seen) xs

/-- Keep the first occurrence of every element. -/
def dedupFirst {α : Type} [DecidableEq α] (l : List α) : List α :=
  dedupFirstAux [] l

/-!  ## Daily high/low/gust annotations
(`src/dashboard/weather_dash_polars.py`, `make_high_low_annotations_dict`)

The merged `weather_df` is grouped with `groupby(pl.col("DATE").dt.day())`:
the key is the **day-of-month** (1–31) of the naive local timestamp.  Per
group the code takes `TEMP.max()`, `TEMP.min()`, `WIND_SPEED.max()` (nulls
ignored, all-null → null).  It then iterates the grouped rows and, for each
of the dict keys `"High Temp"`, `"Low Temp"`, `"High Windspeed"` whose
aggregate is not `None`, re-filters `weather_df` to
`(DATE.dt.day() == day) & (col == value)` and takes `this_df["DATE"][0]` —
the first matching row **in the dataframe's own row order** (the pipeline
supplies observations sorted newest-first followed by forecasts
oldest-first).

Only the columns the function touches are modelled.  The timestamp is
modelled calendrically so that `.dt.day()` is a field projection; ordering
of `CDate` is chronological (lexicographic).  polars `groupby` has
unspecified group order; groups are modelled in order of first occurrence,
which is immaterial to the stated properties.
-/

/-- A naive local timestamp, calendrical view: year, month, day-of-month and
microseconds since that day's midnight. -/
structure CDate where
  year : Nat
  month : Nat
  day : Nat
  tod : Nat
deriving DecidableEq, Repr

/-- Chronological strict order on `CDate` (lexicographic). -/
def CDate.before (a b : CDate) : Bool :=
  if a.year ≠ b.year then a.year < b.year
  else if a.month ≠ b.month then a.month < b.month
  else if a.day ≠ b.day then a.day < b.day
  else a.tod < b.tod

/-- A merged-series row, restricted to the columns
`make_high_low_annotations_dict` reads. -/
structure WRow where
  DATE : CDate
  TEMP : Option ℚ
  WIND_SPEED : Option ℚ
deriving DecidableEq, Repr

/-- The three entries of `HIGH_LOW_ALIAS_COL_DICT`, in dict-key order. -/
inductive AnnoCat
  | highTemp
  | lowTemp
  | highWind
deriving DecidableEq, Repr

/-- Column selected for a category (`HIGH_LOW_ALIAS_COL_DICT`). -/
def catCol : AnnoCat → WRow → Option ℚ
  | .highTemp => WRow.TEMP
  | .lowTemp => WRow.TEMP
  | .highWind => WRow.WIND_SPEED

/-- The distinct day-of-month keys of the groupby, in first-occurrence
order. -/
def dayKeys (rows : List WRow) : List Nat :=
  dedupFirst (rows.map (fun r => r.DATE.day))

/-- The aggregate of one group and category: `max` for `High Temp` and
`High Windspeed`, `min` for `Low Temp`; nulls ignored, all-null → `none`. -/
def catAgg (rows : List WRow) (cat : AnnoCat) (d : Nat) : Option ℚ :=
  let vals := rows.filterMap (fun r => if r.DATE.day = d then catCol cat r else none)
  match cat with
  | .highTemp => listMax? vals
  | .lowTemp => listMin? vals
  | .highWind => listMax? vals

/-- One annotation candidate for `(day, category)`: the aggregate value
(skipped when null) paired with the `DATE` of the first row of `weather_df`
matching `(DATE.dt.day() == day) & (col == value)`.  The `find?` always
succeeds here because the aggregate value is attained in the group; its
`Option` is threaded only to keep the definition total. -/
def annoFor (rows : List WRow) (cat : AnnoCat) (d : Nat) : Option (CDate × ℚ) :=
  (catAgg rows cat d).bind fun v =>
    (rows.find? (fun r => r.DATE.day == d && catCol cat r == some v)).map
      fun r0 => (r0.DATE, v)

/-- The `annotations_dict`, one list per dict key. -/
structure Annos where
  highTemp : List (CDate × ℚ)
  lowTemp : List (CDate × ℚ)
  highWind : List (CDate × ℚ)
deriving DecidableEq, Repr

/-- Body of the `for row in high_low_df.iter_rows` loop for one grouped row:
appends, for each category in dict-key order, the annotation candidate for
that day (when the aggregate exists). -/
def annosStep (rows : List WRow) (acc : Annos) (d : Nat) : Annos :=
  let acc1 :=
    match annoFor rows .highTemp d with
    | some a => { acc with highTemp := acc.highTemp ++ [a] }
    | none => acc
  let acc2 :=
    match annoFor rows .lowTemp d with
    | some a => { acc1 with lowTemp := acc1.lowTemp ++ [a] }
    | none => acc1
  match annoFor rows .highWind d with
  | some a => { acc2 with highWind := acc2.highWind ++ [a] }
  | none => acc2

/-- `make_high_low_annotations_dict`. -/
def make_high_low_annotations_dict (rows : List WRow) : Annos :=
  (dayKeys rows).foldl (annosStep rows) ⟨[], [], []⟩

lemma annosStep_highTemp (rows : List WRow) (acc : Annos) (d : Nat) :
    (annosStep rows acc d).highTemp
      = acc.highTemp ++ (annoFor rows .highTemp d).toList := by
  simp only [annosStep]
  cases annoFor rows AnnoCat.highTemp d <;>
    cases annoFor rows AnnoCat.lowTemp d <;>
      cases annoFor rows AnnoCat.highWind d <;> simp

lemma annosStep_lowTemp (rows : List WRow) (acc : Annos) (d : Nat) :
    (annosStep rows acc d).lowTemp
      = acc.lowTemp ++ (annoFor rows .lowTemp d).toList := by
  simp only [annosStep]
  cases annoFor rows AnnoCat.highTemp d <;>
    cases annoFor rows AnnoCat.lowTemp d <;>
      cases annoFor rows AnnoCat.highWind d <;> simp

lemma annosStep_highWind (rows : List WRow) (acc : Annos) (d : Nat) :
    (annosStep rows acc d).highWind
      = acc.highWind ++ (annoFor rows .highWind d).toList := by
  simp only [annosStep]
  cases annoFor rows AnnoCat.highTemp d <;>
    cases annoFor rows AnnoCat.lowTemp d <;>
      cases annoFor rows AnnoCat.highWind d <;> simp

lemma annos_foldl_spec (rows : List WRow) (days : List Nat) (acc : Annos) :
    ((days.foldl (annosStep rows) acc).highTemp
        = acc.highTemp ++ days.filterMap (annoFor rows .highTemp))
  ∧ ((days.foldl (annosStep rows) acc).lowTemp
        = acc.lowTemp ++ days.filterMap (annoFor rows .lowTemp))
  ∧ ((days.foldl (annosStep rows) acc).highWind
        = acc.highWind ++ days.filterMap (annoFor rows .highWind)) := by
  induction days generalizing acc with
  | nil => simp
  | cons d ds ih =>
    obtain ⟨i1, i2, i3⟩ := ih (annosStep rows acc d)
    refine ⟨?_, ?_, ?_⟩
    · rw [List.foldl_cons, i1, annosStep_highTemp, List.filterMap_cons]
      cases annoFor rows AnnoCat.highTemp d <;> simp
    · rw [List.foldl_cons, i2, annosStep_lowTemp, List.filterMap_cons]
      cases annoFor rows AnnoCat.lowTemp d <;> simp
    · rw [List.foldl_cons, i3, annosStep_highWind, List.filterMap_cons]
      cases annoFor rows AnnoCat.highWind d <;> simp

lemma listMax?_mem {α : Type} [LinearOrder α] {l : List α} {v : α}
    (h : listMax? l = some v) : v ∈ l := by
  match l with
  | [] => simp [listMax?] at h
  | x :: xs =>
    simp only [listMax?, Option.some.injEq] at h
    subst h
    induction xs generalizing x with
    | nil => simp [List.foldl]
    | cons y ys ih =>
      simp only [List.foldl_cons]
      rcases List.mem_cons.mp (ih (max x y)) with h | h
      · rw [h]
        rcases max_choice x y with he | he <;> rw [he] <;> simp
      · simp [h]

lemma listMin?_mem {α : Type} [LinearOrder α] {l : List α} {v : α}
    (h : listMin? l = some v) : v ∈ l := by
  match l with
  | [] => simp [listMin?] at h
  | x :: xs =>
    simp only [listMin?, Option.some.injEq] at h
    subst h
    induction xs generalizing x with
    | nil => simp [List.foldl]
    | cons y ys ih =>
      simp only [List.foldl_cons]
      rcases List.mem_cons.mp (ih (min x y)) with h | h
      · rw [h]
        rcases min_choice x y with he | he <;> rw [he] <;> simp
      · simp [h]

/-- A non-null aggregate is attained by some row of its group. -/
lemma catAgg_attained {rows : List WRow} {cat : AnnoCat} {d : Nat} {v : ℚ}
    (h : catAgg rows cat d = some v) :
    ∃ r ∈ rows, r.DATE.day = d ∧ catCol cat r = some v := by
  have hv : v ∈ rows.filterMap
      (fun r => if r.DATE.day = d then catCol cat r else none) := by
    simp only [catAgg] at h
    cases cat
    · exact listMax?_mem h
    · exact listMin?_mem h
    · exact listMax?_mem h
  rw [List.mem_filterMap] at hv
  obtain ⟨r, hr, hf⟩ := hv
  by_cases hd : r.DATE.day = d
  · exact ⟨r, hr, hd, by simpa [hd] using hf⟩
  · simp [hd] at hf

/-- Claim C1 (amended): the daily aggregation groups the merged series by
**day-of-month** of the local timestamp (not by full calendar date); per
group it takes max `TEMP`, min `TEMP`, max `WIND_SPEED` (nulls ignored), and
for each category whose aggregate is non-null it emits exactly one
annotation, whose timestamp is the `DATE` of the **first row in the
dataframe's own row order** whose day-of-month and column value match —
*not* necessarily the chronologically earliest occurrence (the pipeline
orders observations newest-first, so ties among observed rows resolve to the
latest occurrence). -/
theorem make_high_low_annotations_amended (rows : List WRow) :
    ((make_high_low_annotations_dict rows).highTemp
        = (dayKeys rows).filterMap (annoFor rows .highTemp)
      ∧ (make_high_low_annotations_dict rows).lowTemp
        = (dayKeys rows).filterMap (annoFor rows .lowTemp)
      ∧ (make_high_low_annotations_dict rows).highWind
        = (dayKeys rows).filterMap (annoFor rows .highWind))
  ∧ ∀ cat d v, catAgg rows cat d = some v →
      ∃ r0, rows.find? (fun r => r.DATE.day == d && catCol cat r == some v)
              = some r0
        ∧ annoFor rows cat d = some (r0.DATE, v) := by
  constructor
  · have h := annos_foldl_spec rows (dayKeys rows) ⟨[], [], []⟩
    simpa [make_high_low_annotations_dict] using h
  · intro cat d v hagg
    obtain ⟨r, hr, hd, hcol⟩ := catAgg_attained hagg
    have hsome : (rows.find?
        (fun r => r.DATE.day == d && catCol cat r == some v)).isSome := by
      rw [List.find?_isSome]
      exact ⟨r, hr, by simp [hd, hcol]⟩
    obtain ⟨r0, hr0⟩ := Option.isSome_iff_exists.mp hsome
    exact ⟨r0, hr0, by simp [annoFor, hagg, hr0]⟩

/-- Timestamps used by the C1 counterexample: three instants of
May 10 2024, 00:00:01, 00:00:02 and 00:00:03 local time. -/
def exC1Date0 : CDate := ⟨2024, 5, 10, 1000000⟩

/-- Second instant of the C1 counterexample day. -/
def exC1Date1 : CDate := ⟨2024, 5, 10, 2000000⟩

/-- Third instant of the C1 counterexample day. -/
def exC1Date2 : CDate := ⟨2024, 5, 10, 3000000⟩

/-- The C1 counterexample series, in the merged pipeline's row order
(observations sorted newest-first): temperature 20 at 00:00:03, 20 at
00:00:02, 10 at 00:00:01. -/
def exC1Rows : List WRow :=
  [⟨exC1Date2, some 20, none⟩, ⟨exC1Date1, some 20, none⟩,
   ⟨exC1Date0, some 10, none⟩]

/-- Claim C1 counterexample: on a single-day merged series ordered
newest-first (as the pipeline produces), the daily high of 20° is attained
first (chronologically) at 00:00:02, yet the emitted high-temperature
annotation carries the 00:00:03 timestamp — the first *row*, which is the
latest occurrence, not the earliest.  So the annotation timestamp is not
"the first timestamp that day at which that extreme value occurred". -/
theorem make_high_low_annotations_first_occurrence_cex :
    (make_high_low_annotations_dict exC1Rows).highTemp = [(exC1Date2, 20)]
  ∧ (⟨exC1Date1, some 20, none⟩ : WRow) ∈ exC1Rows
  ∧ CDate.before exC1Date1 exC1Date2 = true
  ∧ exC1Date1 ≠ exC1Date2 := by
  refine ⟨by decide, by decide, by decide, by decide⟩

/-!  ## Observation and forecast readers, merge, window filter
(`src/dashboard/weather_dash_polars.py`: `read_weather_observations`,
`read_weather_predictions`, `make_weather_df`, `filter_weather_df_by_date`)

Timestamps here are naive datetimes as `Nat` microseconds.  The timezone
conversion `dt.convert_time_zone("US/Central")` followed by
`dt.replace_time_zone(None)` turns a UTC instant into naive local wall time;
it is modelled as subtracting a westward offset `off` (µs), passed as a
parameter (5 h or 6 h for US/Central depending on DST).

Only the columns each function actually reads/produces are modelled; columns
the reader `drop`s are omitted from the raw row structures.
-/

/-- Top of the hour containing `t`. -/
def topOfHour (t : Nat) : Nat := t / usecPerHour * usecPerHour

/-- Naive-local wall time of a UTC instant, for a westward offset `off`. -/
def toLocal (off t : Nat) : Nat := t - off

/-- `datetime.replace(hour=h, minute=m, second=s)` on a naive timestamp:
the date and the microsecond component are kept. -/
def replaceHMS (t h m s : Nat) : Nat :=
  dayStart t + h * usecPerHour + m * usecPerMin + s * usecPerSec + t % usecPerSec

/-- `datetime.replace(hour=h, minute=m, second=s, microsecond=u)`. -/
def replaceHMSU (t h m s u : Nat) : Nat :=
  dayStart t + h * usecPerHour + m * usecPerMin + s * usecPerSec + u

/-- A raw observation-log row after `scan_csv`, restricted to the columns
`read_weather_observations` keeps (the dropped instrument columns are
omitted).  `dateutc` holds the result of
`str.strptime(..., strict=False)`: `none` is a failed parse (polars yields
null instead of raising).  The `id` column is `Float64` in the schema but
only ever holds the integer append-order cursor (the ingest endpoint writes
`max + 1`), so it is idealised as `ℤ`. -/
structure RawObs where
  id : ℤ
  dateutc : Option Nat
  tempf : Option ℚ
  winddir : Option ℚ
  windspeedmph : Option ℚ
  windgustmph : Option ℚ
  hourlyrainin : Option ℚ
  eventrainin : Option ℚ
  dailyrainin : Option ℚ
  dewpointf : Option ℚ
deriving DecidableEq, Repr

/-- An output row of `read_weather_observations` (renamed + selected). -/
structure ObsRow where
  DATE : Nat
  TEMP : Option ℚ
  DEWPOINT : Option ℚ
  WIND_SPEED : Option ℚ
  WIND_DIRECTION : Option ℚ
  GUST_SPEED : Option ℚ
  RAIN_HOURLY : Option ℚ
  RAIN_DAILIY : Option ℚ
  RAIN_EVENT : Option ℚ
deriving DecidableEq, Repr

/-- `.round(1)`: round to one decimal digit (float tie behaviour
idealised as round-half-up on `ℚ`; no claim depends on ties). -/
def roundTenth (q : ℚ) : ℚ := (round (q * 10) : ℤ) / 10

/-- Rename/select step of `read_weather_observations` for one row whose
parsed local timestamp is `t`. -/
def obsProject (r : RawObs) (t : Nat) : ObsRow :=
  { DATE := t
    TEMP := r.tempf
    DEWPOINT := r.dewpointf.map roundTenth
    WIND_SPEED := r.windspeedmph
    WIND_DIRECTION := r.winddir
    GUST_SPEED := r.windgustmph
    RAIN_HOURLY := r.hourlyrainin
    RAIN_DAILIY := r.dailyrainin
    RAIN_EVENT := r.eventrainin }

/-- The `datect` column computation plus the trailing 3-day filter for one
row: a row whose timestamp failed to parse has a null `datect`, and the
comparison `datect > utcnow() - 3 days` is null, so the row is dropped
(polars filters out null predicates).  Note the code compares the *local*
`datect` against naive *UTC* now, faithfully reproduced. -/
def obsDated (off now : Nat) (r : RawObs) : Option (RawObs × Nat) :=
  match r.dateutc with
  | none => none
  | some t =>
    if now - 3 * usecPerDay < toLocal off t then some (r, toLocal off t) else none

/-- `read_weather_observations`.  Returns `none` only when the body raises
(`try/except` returning `None`), which the modelled operations never do:
a bad timestamp becomes a null and is filtered, not raised. -/
def read_weather_observations (rows : List RawObs) (off now : Nat) :
    Option (List ObsRow) :=
  match listMax? (rows.map RawObs.id) with
  | none => some []
  | some mx =>
    let kept := rows.filter (fun r => decide (mx - 4000 ≤ r.id))
    let dated := kept.filterMap (obsDated off now)
    let sorted := insSortBy (fun a b => decide (b.2 ≤ a.2)) dated
    some (sorted.map (fun rt => obsProject rt.1 rt.2))

/-- A raw forecast-predictions row after `scan_csv`, restricted to the
columns `read_weather_predictions` keeps (`id`, `number`, `endTime`,
`isDaytime` and the two lookup keys are dropped). -/
structure RawPred where
  startTime : Nat
  forecast_updated_time : Nat
  temperature : Option ℚ
  probabilityOfPrecipitation : Option ℤ
  dewpoint : Option ℚ
  windSpeed : Option ℚ
  windDirection : Option ℚ
deriving DecidableEq, Repr

/-- An output row of `read_weather_predictions`. -/
structure PredRow where
  DATE : Nat
  TEMP : Option ℚ
  DEWPOINT : Option ℚ
  WIND_SPEED : Option ℚ
  WIND_DIRECTION : Option ℚ
  PRECIP_PROB : Option ℤ
  PREDICTION : Bool
deriving DecidableEq, Repr

/-- The start-time cutoff of `read_weather_predictions`:
`utcnow() - timedelta(minutes=utcnow().minute)`.  Subtracting only the
minute component leaves the seconds/microseconds in place. -/
def predThreshold (now : Nat) : Nat :=
  now - usecPerMin * (now / usecPerMin % 60)

/-- Conversion + rename/select step of `read_weather_predictions` for one
kept row (adds `PREDICTION = True`). -/
def toPredRow (off : Nat) (r : RawPred) : PredRow :=
  { DATE := toLocal off r.startTime
    TEMP := r.temperature
    DEWPOINT := r.dewpoint
    WIND_SPEED := r.windSpeed
    WIND_DIRECTION := r.windDirection
    PRECIP_PROB := r.probabilityOfPrecipitation
    PREDICTION := true }

/-- `read_weather_predictions`: keep only the batch whose
`forecast_updated_time` equals the column maximum and whose `startTime` is
strictly after `predThreshold now`; convert to local, sort ascending by the
converted start time, add the provenance flag. -/
def read_weather_predictions (rows : List RawPred) (off now : Nat) :
    List PredRow :=
  match listMax? (rows.map RawPred.forecast_updated_time) with
  | none => []
  | some mx =>
    let kept := rows.filter
      (fun r => r.forecast_updated_time == mx
        && decide (predThreshold now < r.startTime))
    (insSortBy
        (fun a b => decide (toLocal off a.startTime ≤ toLocal off b.startTime))
        kept).map (toPredRow off)

/-- Every row the forecast reader returns carries `PREDICTION = true`. -/
lemma read_weather_predictions_prediction_true
    {rows : List RawPred} {off now : Nat} {q : PredRow}
    (h : q ∈ read_weather_predictions rows off now) : q.PREDICTION = true := by
  simp only [read_weather_predictions] at h
  cases hmx : listMax? (rows.map RawPred.forecast_updated_time) with
  | none => rw [hmx] at h; simp at h
  | some mx =>
    rw [hmx] at h
    simp only [List.mem_map] at h
    obtain ⟨r, _, hr⟩ := h
    rw [← hr]
    rfl

/-- The merged (`diagonal` concat) row schema: union of the two readers'
columns; fields present in only one input are `Option`s that the other
side fills with `none`. -/
structure MergedRow where
  DATE : Nat
  TEMP : Option ℚ
  DEWPOINT : Option ℚ
  WIND_SPEED : Option ℚ
  WIND_DIRECTION : Option ℚ
  GUST_SPEED : Option ℚ
  RAIN_HOURLY : Option ℚ
  RAIN_DAILIY : Option ℚ
  RAIN_EVENT : Option ℚ
  PRECIP_PROB : Option ℤ
  PREDICTION : Option Bool
deriving DecidableEq, Repr

/-- Lifting of an observation row into the merged schema: the forecast-only
columns (`PRECIP_PROB`, `PREDICTION`) become null. -/
def obsToMerged (o : ObsRow) : MergedRow :=
  { DATE := o.DATE
    TEMP := o.TEMP
    DEWPOINT := o.DEWPOINT
    WIND_SPEED := o.WIND_SPEED
    WIND_DIRECTION := o.WIND_DIRECTION
    GUST_SPEED := o.GUST_SPEED
    RAIN_HOURLY := o.RAIN_HOURLY
    RAIN_DAILIY := o.RAIN_DAILIY
    RAIN_EVENT := o.RAIN_EVENT
    PRECIP_PROB := none
    PREDICTION := none }

/-- Lifting of a forecast row into the merged schema: the observation-only
columns (`GUST_SPEED`, the three rain columns) become null. -/
def predToMerged (p : PredRow) : MergedRow :=
  { DATE := p.DATE
    TEMP := p.TEMP
    DEWPOINT := p.DEWPOINT
    WIND_SPEED := p.WIND_SPEED
    WIND_DIRECTION := p.WIND_DIRECTION
    GUST_SPEED := none
    RAIN_HOURLY := none
    RAIN_DAILIY := none
    RAIN_EVENT := none
    PRECIP_PROB := p.PRECIP_PROB
    PREDICTION := some p.PREDICTION }

/-- `make_weather_df`: `pl.concat([observation_df, predictions_df],
how="diagonal")` — row-wise concatenation over the column-superset schema,
no deduplication. -/
def make_weather_df (obs : List ObsRow) (preds : List PredRow) :
    List MergedRow :=
  obs.map obsToMerged ++ preds.map predToMerged

/-- `filter_weather_df_by_date` (for a `weather_df` whose `DATE` column is
already temporal, as the pipeline supplies).  A `none` bound defaults to
`(now ± 1 day).replace(...)`: the start keeps the current microsecond
component (only hour/minute/second are replaced), the end sets
`microsecond=9999`. -/
def filter_weather_df_by_date (rows : List MergedRow)
    (startOpt endOpt : Option Nat) (now : Nat) : List MergedRow :=
  let s := startOpt.getD (replaceHMS (now - usecPerDay) 0 0 1)
  let e := endOpt.getD (replaceHMSU (now + usecPerDay) 23 59 59 9999)
  rows.filter (fun r => decide (s ≤ r.DATE) && decide (r.DATE ≤ e))


lemma predThreshold_eq (now : Nat) :
    predThreshold now = topOfHour now + now % usecPerMin := by
  simp only [predThreshold, topOfHour, usecPerMin, usecPerHour]
  omega

/-- Claim C3 (amended): the forecast reader returns exactly the rows of the
newest batch (`forecast_updated_time` equal to the column maximum) whose
`startTime` is **strictly after** the top of the current hour *plus the
current seconds-within-the-minute* (the code subtracts only the minute
component of `utcnow()` and compares with `>`), projected to output rows;
in particular a period starting exactly at the top of the current hour is
excluded.  No row of an older batch is ever returned. -/
theorem read_weather_predictions_amended
    (rows : List RawPred) (off now : Nat) (q : PredRow) :
    q ∈ read_weather_predictions rows off now ↔
      ∃ r ∈ rows,
        listMax? (rows.map RawPred.forecast_updated_time)
            = some r.forecast_updated_time
        ∧ topOfHour now + now % usecPerMin < r.startTime
        ∧ toPredRow off r = q := by
  simp only [read_weather_predictions]
  cases hmx : listMax? (rows.map RawPred.forecast_updated_time) with
  | none =>
    have hnil : rows = [] := by
      have h0 := (listMax?_eq_none_iff (rows.map RawPred.forecast_updated_time)).mp hmx
      simpa using h0
    subst hnil
    simp
  | some mx =>
    simp only [List.mem_map, mem_insSortBy, List.mem_filter, Bool.and_eq_true,
      beq_iff_eq, decide_eq_true_eq, predThreshold_eq]
    constructor
    · rintro ⟨r, ⟨hr, hu, hs⟩, hq⟩
      refine ⟨r, hr, ?_, hs, hq⟩
      rw [hu]
    · rintro ⟨r, hr, hu, hs, hq⟩
      injection hu with h
      exact ⟨r, ⟨hr, h.symm, hs⟩, hq⟩

/-- The C3 counterexample forecast row: a period starting exactly at the top
of hour 1000, in the (only, hence newest) batch. -/
def exPredC3 : RawPred :=
  { startTime := 1000 * usecPerHour
    forecast_updated_time := 42
    temperature := some 50
    probabilityOfPrecipitation := some 10
    dewpoint := some 40
    windSpeed := some 5
    windDirection := some 180 }

/-- The C3 counterexample clock: hour 1000 at 00:05:30 (UTC). -/
def exNowC3 : Nat := 1000 * usecPerHour + 5 * usecPerMin + 30 * usecPerSec

/-- Claim C3 counterexample: a forecast period of the newest batch starting
exactly at the top of the current hour — which starts "at or after the top
of the current hour", so the claim says it is returned — is in fact
excluded: the reader returns nothing, because its cutoff is strict and
carries the current seconds (at 00:05:30 the cutoff is 00:00:30 of that
hour). -/
theorem read_weather_predictions_top_of_hour_cex :
    read_weather_predictions [exPredC3] 0 exNowC3 = []
  ∧ listMax? ([exPredC3].map RawPred.forecast_updated_time)
      = some exPredC3.forecast_updated_time
  ∧ topOfHour exNowC3 ≤ exPredC3.startTime := by
  refine ⟨by decide, by decide, by decide⟩

/-- Claim C5 (amended): a row whose timestamp fails to parse is *not* a
whole-read failure: under `strict=False` it gets a null `datect` and is
silently dropped by the trailing-window filter, while the other rows are
still returned (per-row recovery).  The modelled reader body never raises,
so nothing can propagate to the polling loop: the result is always `some`
list, containing exactly the projections of the rows that are within the id
window, have a parseable timestamp, and pass the 3-day filter. -/
theorem read_weather_observations_amended (rows : List RawObs) (off now : Nat) :
    ∃ l, read_weather_observations rows off now = some l
      ∧ ∀ o, o ∈ l ↔ ∃ r ∈ rows, ∃ mx t,
          listMax? (rows.map RawObs.id) = some mx
          ∧ mx - 4000 ≤ r.id
          ∧ r.dateutc = some t
          ∧ now - 3 * usecPerDay < toLocal off t
          ∧ obsProject r (toLocal off t) = o := by
  simp only [read_weather_observations]
  cases hmx : listMax? (rows.map RawObs.id) with
  | none =>
    have hnil : rows = [] := by
      have h0 := (listMax?_eq_none_iff (rows.map RawObs.id)).mp hmx
      simpa using h0
    subst hnil
    exact ⟨[], rfl, by simp⟩
  | some mx =>
    refine ⟨_, rfl, ?_⟩
    intro o
    simp only [List.mem_map, mem_insSortBy, List.mem_filterMap, List.mem_filter,
      decide_eq_true_eq]
    constructor
    · rintro ⟨a, ⟨r', ⟨hr', hid⟩, hdated⟩, hproj⟩
      simp only [obsDated] at hdated
      cases hdt : r'.dateutc with
      | none => rw [hdt] at hdated; simp at hdated
      | some t0 =>
        rw [hdt] at hdated
        dsimp only at hdated
        by_cases hc : now - 3 * usecPerDay < toLocal off t0
        · rw [if_pos hc] at hdated
          injection hdated with h
          subst h
          dsimp only at hproj
          exact ⟨r', hr', mx, t0, rfl, hid, hdt, hc, hproj⟩
        · rw [if_neg hc] at hdated
          exact absurd hdated (by simp)
    · rintro ⟨r, hr, mx', t, hmx', hid, hdt, hc, hproj⟩
      injection hmx' with hm
      subst hm
      refine ⟨(r, toLocal off t), ⟨r, ⟨hr, hid⟩, ?_⟩, hproj⟩
      simp [obsDated, hdt, hc]

/-- The C5 counterexample: a well-formed recent observation row (null
dewpoint, which the reader passes through as null). -/
def exRawGood : RawObs :=
  { id := 2
    dateutc := some (1000 * usecPerDay)
    tempf := some 70
    winddir := some 90
    windspeedmph := some 5
    windgustmph := some 7
    hourlyrainin := some 0
    eventrainin := some 0
    dailyrainin := some 0
    dewpointf := none }

/-- The C5 counterexample: a row whose timestamp fails to parse
(`strptime(strict=False)` yields null). -/
def exRawBad : RawObs :=
  { id := 1
    dateutc := none
    tempf := some 71
    winddir := some 91
    windspeedmph := some 6
    windgustmph := some 8
    hourlyrainin := some 0
    eventrainin := some 0
    dailyrainin := some 0
    dewpointf := none }

/-- Claim C5 counterexample: an observation log containing a row with an
unparseable timestamp does **not** fail the whole read: the reader returns
`some` partial result — exactly the other (parseable) row — instead of a
whole-read DataUnavailable failure; the bad row is silently dropped. -/
theorem read_weather_observations_partial_cex :
    read_weather_observations [exRawGood, exRawBad]
        (6 * usecPerHour) (1000 * usecPerDay)
      = some [obsProject exRawGood (1000 * usecPerDay - 6 * usecPerHour)]
  ∧ exRawBad ∈ [exRawGood, exRawBad]
  ∧ exRawBad.dateutc = none := by
  refine ⟨by decide, by decide, rfl⟩

/-- The default window's lower bound as the claim words it: yesterday at
exactly 00:00:01 (modelled from the spec, for comparison with the code). -/
def claimedDefaultLo (now : Nat) : Nat :=
  dayStart (now - usecPerDay) + usecPerSec

/-- The default window's upper bound as the claim words it: tomorrow at
23:59:59.0009 (modelled from the spec, for comparison with the code). -/
def claimedDefaultHi (now : Nat) : Nat :=
  dayStart (now + usecPerDay) + 23 * usecPerHour + 59 * usecPerMin
    + 59 * usecPerSec + 900

/-- The C4 counterexample clock: day 1000 at 12:00:00.500000. -/
def exNowC4 : Nat := 1000 * usecPerDay + 12 * usecPerHour + 500000

/-- The C4 counterexample row, stamped yesterday at 00:00:01.200000 —
inside the claimed default range. -/
def exC4Row : MergedRow :=
  { DATE := 999 * usecPerDay + usecPerSec + 200000
    TEMP := some 50
    DEWPOINT := some 40
    WIND_SPEED := some 3
    WIND_DIRECTION := some 90
    GUST_SPEED := some 5
    RAIN_HOURLY := some 0
    RAIN_DAILIY := some 0
    RAIN_EVENT := some 0
    PRECIP_PROB := none
    PREDICTION := none }

/-- Claim C4 counterexample: with no explicit range, a row stamped
yesterday 00:00:01.200000 lies inside the claimed default range
[yesterday 00:00:01, tomorrow 23:59:59.0009] yet is **not** returned,
because the code's default start keeps the current clock's microsecond
component (here .500000), so the actual lower bound is
yesterday 00:00:01.500000. -/
theorem filter_weather_df_default_range_cex :
    filter_weather_df_by_date [exC4Row] none none exNowC4 = []
  ∧ claimedDefaultLo exNowC4 ≤ exC4Row.DATE
  ∧ exC4Row.DATE ≤ claimedDefaultHi exNowC4 := by
  refine ⟨by decide, by decide, by decide⟩

lemma mem_filter_window (rows : List MergedRow) (r : MergedRow) (s e : Nat) :
    r ∈ rows.filter (fun x => decide (s ≤ x.DATE) && decide (x.DATE ≤ e)) ↔
      r ∈ rows ∧ s ≤ r.DATE ∧ r.DATE ≤ e := by
  simp only [List.mem_filter, Bool.and_eq_true, decide_eq_true_eq]

/-- Claim C4 (amended): with no explicit bounds the window filter keeps
exactly the rows with
`yesterday 00:00:01 + (current microsecond) ≤ DATE ≤ tomorrow
23:59:59.009999` — the start bound inherits the microsecond component of
`now` (`replace` is not given `microsecond=0`) and the end bound is
`microsecond=9999`, i.e. 23:59:59.009999, both inclusive. -/
theorem filter_weather_df_default_range_amended
    (rows : List MergedRow) (now : Nat) (r : MergedRow)
    (h : usecPerDay ≤ now) :
    r ∈ filter_weather_df_by_date rows none none now ↔
      r ∈ rows
      ∧ dayStart (now - usecPerDay) + usecPerSec + now % usecPerSec ≤ r.DATE
      ∧ r.DATE ≤ dayStart (now + usecPerDay) + 23 * usecPerHour
          + 59 * usecPerMin + 59 * usecPerSec + 9999 := by
  have hmod : (now - usecPerDay) % usecPerSec = now % usecPerSec := by
    simp only [usecPerDay, usecPerSec] at h ⊢
    omega
  rw [filter_weather_df_by_date]
  rw [Option.getD_none, Option.getD_none]
  rw [mem_filter_window]
  rw [replaceHMS, replaceHMSU, hmod]
  constructor
  · rintro ⟨hr, hlo, hhi⟩
    exact ⟨hr, by omega, by omega⟩
  · rintro ⟨hr, hlo, hhi⟩
    exact ⟨hr, by omega, by omega⟩

/-- Concrete instantiation of `filter_weather_df_default_range_amended`:
at noon of day 1000 (zero microseconds), a row stamped yesterday at
00:00:02 is inside the actual default window. -/
theorem filter_weather_df_default_range_amended_witness :
    ({ DATE := 999 * usecPerDay + 2 * usecPerSec
       TEMP := some 60
       DEWPOINT := some 50
       WIND_SPEED := some 1
       WIND_DIRECTION := some 0
       GUST_SPEED := some 2
       RAIN_HOURLY := some 0
       RAIN_DAILIY := some 0
       RAIN_EVENT := some 0
       PRECIP_PROB := none
       PREDICTION := none } : MergedRow) ∈
      filter_weather_df_by_date
        [{ DATE := 999 * usecPerDay + 2 * usecPerSec
           TEMP := some 60
           DEWPOINT := some 50
           WIND_SPEED := some 1
           WIND_DIRECTION := some 0
           GUST_SPEED := some 2
           RAIN_HOURLY := some 0
           RAIN_DAILIY := some 0
           RAIN_EVENT := some 0
           PRECIP_PROB := none
           PREDICTION := none }]
        none none (1000 * usecPerDay + 12 * usecPerHour) := by
  apply (filter_weather_df_default_range_amended _ _ _ (by decide)).mpr
  refine ⟨by decide, by decide, by decide⟩

/-- Claim C2: merging an observation table with a forecast table (the
output of `read_weather_predictions`) via the diagonal concat of
`make_weather_df` yields exactly `|obs| + |preds|` rows (no deduplication);
positionally, each of the first `|obs|` rows is the corresponding
observation row with a null `PREDICTION` flag and null forecast-only
`PRECIP_PROB`, and each of the remaining rows is the corresponding forecast
row with `PREDICTION = true` and null observation-only columns
(`GUST_SPEED` and the three rain columns). -/
theorem make_weather_df_merge (obs : List ObsRow) (rows : List RawPred)
    (off now : Nat) :
    (make_weather_df obs (read_weather_predictions rows off now)).length
        = obs.length + (read_weather_predictions rows off now).length
  ∧ (∀ i, i < obs.length →
      ((make_weather_df obs (read_weather_predictions rows off now))[i]?).map
          MergedRow.PREDICTION = some none
      ∧ ((make_weather_df obs (read_weather_predictions rows off now))[i]?).map
          MergedRow.PRECIP_PROB = some none)
  ∧ (∀ j, j < (read_weather_predictions rows off now).length →
      ((make_weather_df obs
          (read_weather_predictions rows off now))[obs.length + j]?).map
          MergedRow.PREDICTION = some (some true)
      ∧ ((make_weather_df obs
          (read_weather_predictions rows off now))[obs.length + j]?).map
          MergedRow.GUST_SPEED = some none
      ∧ ((make_weather_df obs
          (read_weather_predictions rows off now))[obs.length + j]?).map
          MergedRow.RAIN_HOURLY = some none
      ∧ ((make_weather_df obs
          (read_weather_predictions rows off now))[obs.length + j]?).map
          MergedRow.RAIN_DAILIY = some none
      ∧ ((make_weather_df obs
          (read_weather_predictions rows off now))[obs.length + j]?).map
          MergedRow.RAIN_EVENT = some none) := by
  refine ⟨by simp [make_weather_df], ?_, ?_⟩
  · intro i hi
    have hleft : (make_weather_df obs (read_weather_predictions rows off now))[i]?
        = (obs.map obsToMerged)[i]? := by
      apply List.getElem?_append_left
      simpa using hi
    rw [hleft, List.getElem?_map]
    obtain ⟨o, ho⟩ : ∃ o, obs[i]? = some o := by
      have : i < obs.length := hi
      exact ⟨obs[i], List.getElem?_eq_getElem this⟩
    rw [ho]
    exact ⟨by simp [obsToMerged], by simp [obsToMerged]⟩
  · intro j hj
    have hright : (make_weather_df obs
        (read_weather_predictions rows off now))[obs.length + j]?
        = ((read_weather_predictions rows off now).map predToMerged)[j]? := by
      rw [make_weather_df, List.getElem?_append_right (by simp)]
      congr 1
      simp
    rw [hright, List.getElem?_map]
    obtain ⟨p, hp⟩ : ∃ p, (read_weather_predictions rows off now)[j]? = some p := by
      exact ⟨_, List.getElem?_eq_getElem hj⟩
    have hpm : p ∈ read_weather_predictions rows off now :=
      List.getElem?_mem hp
    have hptrue : p.PREDICTION = true :=
      read_weather_predictions_prediction_true hpm
    rw [hp]
    refine ⟨by simp [predToMerged, hptrue], by simp [predToMerged],
      by simp [predToMerged], by simp [predToMerged], by simp [predToMerged]⟩

/-- The raw forecast row used by the C2 witness: newest (only) batch,
starting comfortably after the witness clock's hour. -/
def exPredC2 : RawPred :=
  { startTime := 2000 * usecPerHour
    forecast_updated_time := 7
    temperature := some 55
    probabilityOfPrecipitation := some 20
    dewpoint := some 45
    windSpeed := some 8
    windDirection := some 270 }

/-- The observation row used by the C2 witness. -/
def exObsC2 : ObsRow :=
  { DATE := 100 * usecPerDay
    TEMP := some 70
    DEWPOINT := none
    WIND_SPEED := some 4
    WIND_DIRECTION := some 45
    GUST_SPEED := some 6
    RAIN_HOURLY := some 0
    RAIN_DAILIY := some 0
    RAIN_EVENT := some 0 }

/-- Concrete instantiation of `make_weather_df_merge`: one observation row
plus the one-row forecast read at hour 1000 — the merged series has the
observation first (null flag, null `PRECIP_PROB`) and the forecast second
(`PREDICTION = true`, null observation-only columns). -/
theorem make_weather_df_merge_witness :
    ((make_weather_df [exObsC2]
        (read_weather_predictions [exPredC2] 0 (1000 * usecPerHour)))[0]?).map
        MergedRow.PREDICTION = some none
  ∧ ((make_weather_df [exObsC2]
        (read_weather_predictions [exPredC2] 0 (1000 * usecPerHour)))[1]?).map
        MergedRow.PREDICTION = some (some true) := by
  constructor
  · exact ((make_weather_df_merge [exObsC2] [exPredC2]
      0 (1000 * usecPerHour)).2.1 0 (by decide)).1
  · have hlen : (read_weather_predictions [exPredC2] 0
        (1000 * usecPerHour)).length = 1 := by decide
    have h := ((make_weather_df_merge [exObsC2] [exPredC2]
      0 (1000 * usecPerHour)).2.2 0 (by rw [hlen]; decide)).1
    simpa using h

/-!  ## Wind-chart bucket width
(`src/dashboard/weather_dash_polars.py`, `make_wind_fig`, lines 735-744)

```
try:
    delta = plot_end_date - plot_start_date
    if delta.total_seconds() > 60 * 15:
        gb_min = int(delta.total_seconds() / 60 / 180)
    else:
        gb_min = 15
except Exception:
    gb_min = 2
if gb_min < 2:
    gb_min = 2
```
`plot_start_date` / `plot_end_date` are the min/max `DATE` of the filtered
frame; on an empty frame they are `None` and the subtraction raises, taken
by the `except` arm.  `int(...)` on a non-negative float truncates, which on
the µs timeline is natural division.
-/

/-- The groupby-dynamic bucket width (minutes) computed by `make_wind_fig`
from the plotted `DATE` column. -/
def windGbMin (dates : List Nat) : Nat :=
  match listMin? dates, listMax? dates with
  | some a, some b =>
    let g := if 900 * usecPerSec < b - a
      then (b - a) / usecPerSec / 60 / 180 else 15
    if g < 2 then 2 else g
  | _, _ => 2

/-- The bucket width as the claim words it (modelled from the spec, for
comparison with the code): window length in seconds / 60 / 180, truncated,
clamped below to 2 minutes. -/
def claimedGbMin (dates : List Nat) : Nat :=
  match listMin? dates, listMax? dates with
  | some a, some b => max 2 ((b - a) / usecPerSec / 60 / 180)
  | _, _ => 2

/-- Claim C8 counterexample: for a 10-minute visible window the code uses a
15-minute bucket width (the `else` arm for windows of ≤ 15 minutes), not
the claimed `max 2 (600 / 60 / 180) = 2` minutes. -/
theorem wind_bucket_width_cex :
    windGbMin [0, 600 * usecPerSec] = 15
  ∧ claimedGbMin [0, 600 * usecPerSec] = 2 := by
  refine ⟨by decide, by decide⟩

/-- Claim C8 (amended): for a non-empty window [a, b], the bucket width is
`max 2 (⌊(b - a) in seconds / 60 / 180⌋)` minutes whenever the window is
strictly longer than 15 minutes, and `15` minutes otherwise (windows of
15 minutes or less are *not* clamped to 2 — they get 15-minute buckets);
an empty window falls back to 2 minutes. -/
theorem wind_bucket_width_amended (dates : List Nat) (a b : Nat)
    (hmin : listMin? dates = some a) (hmax : listMax? dates = some b) :
    windGbMin dates
      = if 900 * usecPerSec < b - a
          then max 2 ((b - a) / usecPerSec / 60 / 180)
          else 15 := by
  simp only [windGbMin, hmin, hmax]
  by_cases hc : 900 * usecPerSec < b - a
  · simp only [hc, if_true]
    split <;> omega
  · simp [hc]

/-- Concrete instantiation of `wind_bucket_width_amended`: a 12-hour window
gets `43200 / 10800 = 4`-minute buckets. -/
theorem wind_bucket_width_amended_witness :
    windGbMin [0, 43200 * usecPerSec] = 4 := by
  have h := wind_bucket_width_amended [0, 43200 * usecPerSec]
    0 (43200 * usecPerSec) (by decide) (by decide)
  rw [h]
  decide

/-!  ## Wind-chart provenance aggregation and marker colour
(`src/dashboard/weather_dash_polars.py`, `make_wind_fig`, lines 746-820)

Per time bucket the code aggregates `pl.col("PREDICTION").max()` — polars
`max` ignores nulls and returns null for an all-null group — and then
renders the bucket with the predicted marker style iff
`row["PREDICTION"] is True` (the chartreuse arrow), otherwise the observed
style (dodgerblue).  In the merged series `PREDICTION` is null on observed
rows and `true` on forecast rows.
-/

/-- polars `max` over a nullable Boolean column: nulls ignored, all-null →
null. -/
def polarsMaxBool (l : List (Option Bool)) : Option Bool :=
  listMax? (l.filterMap id)

/-- The two marker colours of the wind chart. -/
inductive WindMarkerColor
  | chartreuse
  | dodgerblue
deriving DecidableEq, Repr

/-- Marker colour choice: `if row["PREDICTION"] is True` → predicted style
(chartreuse), else observed style (dodgerblue). -/
def windMarkerColor (p : Option Bool) : WindMarkerColor :=
  if p = some true then .chartreuse else .dodgerblue

lemma foldl_max_true {xs : List Bool} {x : Bool}
    (h : x = true ∨ true ∈ xs) : xs.foldl max x = true := by
  induction xs generalizing x with
  | nil =>
    rcases h with h | h
    · simpa using h
    · simp at h
  | cons y ys ih =>
    simp only [List.foldl_cons]
    apply ih
    rcases h with h | h
    · subst h
      left
      cases y <;> rfl
    · rcases List.mem_cons.mp h with h | h
      · left
        rw [← h]
        cases x <;> rfl
      · right
        exact h

lemma listMax?_bool_true {l : List Bool} (h : true ∈ l) :
    listMax? l = some true := by
  cases l with
  | nil => simp at h
  | cons x xs =>
    simp only [listMax?, Option.some.injEq]
    apply foldl_max_true
    rcases List.mem_cons.mp h with h | h
    · left; exact h.symm
    · right; exact h

/-- Claim C10: in the wind chart, each bucket's provenance flag is the
null-ignoring maximum of its rows' `PREDICTION` values; on merged-series
buckets (each flag null or `true`) a bucket containing at least one
forecast row aggregates to `true` and is rendered chartreuse (predicted
style) even if it also contains observed rows, while a bucket of only
observed rows aggregates to null and is rendered dodgerblue (observed
style). -/
theorem wind_bucket_prediction_flag (l : List (Option Bool))
    (_hmerged : ∀ x ∈ l, x = none ∨ x = some true) :
    ((∃ x ∈ l, x = some true) →
        windMarkerColor (polarsMaxBool l) = .chartreuse)
  ∧ ((∀ x ∈ l, x = none) →
        windMarkerColor (polarsMaxBool l) = .dodgerblue) := by
  constructor
  · rintro ⟨x, hx, rfl⟩
    have htrue : true ∈ l.filterMap id := by
      rw [List.mem_filterMap]
      exact ⟨some true, hx, rfl⟩
    simp [windMarkerColor, polarsMaxBool, listMax?_bool_true htrue]
  · intro hall
    have hnil : l.filterMap id = [] := by
      rw [List.filterMap_eq_nil_iff]
      intro a ha
      rw [hall a ha]
      rfl
    simp [windMarkerColor, polarsMaxBool, hnil, listMax?]

/-- Concrete instantiation of `wind_bucket_prediction_flag`: a bucket with
one observed and one forecast row renders chartreuse; an all-observed
bucket renders dodgerblue. -/
theorem wind_bucket_prediction_flag_witness :
    windMarkerColor (polarsMaxBool [none, some true])
        = WindMarkerColor.chartreuse
  ∧ windMarkerColor (polarsMaxBool [none, none])
        = WindMarkerColor.dodgerblue := by
  constructor
  · exact (wind_bucket_prediction_flag [none, some true] (by decide)).1
      ⟨some true, by simp, rfl⟩
  · exact (wind_bucket_prediction_flag [none, none] (by decide)).2
      (by decide)

/-!  ## Description/icon lookup-table appends
(`src/tasks/get_nws_forecast.py`, `add_new_forecast_descriptions` and
`add_new_forecast_icons`)

A fetched NWS frame is left-joined against the existing lookup tables, so a
row's `forecast_descriptions_id` / `icon_id` is null exactly when its text
is new.  The append then takes the distinct new texts, numbers them with
`with_row_count()` — **0-based** `row_nr` — and assigns
`id = row_nr + max_id` (`max_id = 0` when the table is empty), writing
`old table ++ new rows`.  polars `unique` has unspecified order;
`dedupFirst` is a deterministic stand-in (first occurrence kept).
-/

/-- One fetched NWS forecast row, restricted to the columns the lookup
appends read: the two text values and their joined (nullable) ids. -/
structure NwsRow where
  shortForecast : String
  icon : String
  forecast_descriptions_id : Option Int
  icon_id : Option Int
deriving DecidableEq, Repr

/-- `add_new_forecast_descriptions`: returns the table as written to CSV
and the function's boolean result (`true` iff new rows were appended). -/
def add_new_forecast_descriptions (nws : List NwsRow)
    (table : List (Int × String)) : List (Int × String) × Bool :=
  let newTexts := dedupFirst
    ((nws.filter (fun r => r.forecast_descriptions_id = none)).map
      (fun r => r.shortForecast))
  if 0 < newTexts.length then
    let maxId := (listMax? (table.map Prod.fst)).getD 0
    (table ++ newTexts.enum.map (fun it => ((it.1 : Int) + maxId, it.2)), true)
  else (table, false)

/-- `add_new_forecast_icons`: same append logic over the icon texts. -/
def add_new_forecast_icons (nws : List NwsRow)
    (table : List (Int × String)) : List (Int × String) × Bool :=
  let newTexts := dedupFirst
    ((nws.filter (fun r => r.icon_id = none)).map (fun r => r.icon))
  if 0 < newTexts.length then
    let maxId := (listMax? (table.map Prod.fst)).getD 0
    (table ++ newTexts.enum.map (fun it => ((it.1 : Int) + maxId, it.2)), true)
  else (table, false)

/-- Claim C9: evaluation at the failing input.  With an existing table
`[(0, "Sunny")]` (current max id 0) and one new text, the appended row gets
id `0 + 0 = 0` — a **duplicate** of the existing max id — because the
0-based `row_nr` is added to the current max; the claim (and the rest of
the repository: the ingest endpoint and `add_new_predictions` both produce
`1 + max`) calls for id 1.  Same for the icon table. -/
theorem forecast_lookup_duplicate_id_bug :
    add_new_forecast_descriptions
        [{ shortForecast := "Rain", icon := "ri", forecast_descriptions_id := none,
           icon_id := some 0 }]
        [(0, "Sunny")]
      = ([(0, "Sunny"), (0, "Rain")], true)
  ∧ add_new_forecast_icons
        [{ shortForecast := "Rain", icon := "new-icon",
           forecast_descriptions_id := some 0, icon_id := none }]
        [(0, "old-icon")]
      = ([(0, "old-icon"), (0, "new-icon")], true) := by
  refine ⟨by decide, by decide⟩
